import Mathlib

/-!
Verification development for the staged multi-role generation pipeline of the
e2eDevelopment repository (src/e2e_development_agent.py and
src/e2e_development_agent_Hackathon.py).

The Python code is shallowly embedded: dictionaries become association lists
(`List (String × _)` with Python insertion-order semantics), the completion
service becomes an explicit function argument, `time.sleep` is recorded as
data, and the two retry/scan loops are translated with an explicit attempt
list (mirroring `range(max_retries)`) and a fuel argument (fuel is always
sufficient: the scanned list shrinks at every step).
-/

/-! ## Python-style dictionaries (insertion-ordered association lists) -/

/-- Python `d[k] = v`: overwrite in place if the key is present, else append. -/
def dictInsert {α : Type} (k : String) (v : α) : List (String × α) → List (String × α)
  | [] => [(k, v)]
  | (k2, v2) :: rest => if k2 = k then (k, v) :: rest else (k2, v2) :: dictInsert k v rest

/-- Python `d[k]` / `k in d`: first (unique) binding of `k`. -/
def dictGet? {α : Type} (d : List (String × α)) (k : String) : Option α :=
  (d.find? (fun p => p.1 = k)).map (fun p => p.2)

/-- Python `d.get(k, default)`. -/
def dictGetD {α : Type} (d : List (String × α)) (k : String) (v : α) : α :=
  (dictGet? d k).getD v

/-! ## Python string primitives -/

/-- The characters Python `str.strip()` removes (ASCII whitespace). -/
def isPySpace (c : Char) : Bool :=
  c = ' ' || c = '\t' || c = '\n' || c = '\x0b' || c = '\x0c' || c = '\r'

def pyStripList (l : List Char) : List Char :=
  ((l.dropWhile isPySpace).reverse.dropWhile isPySpace).reverse

/-- Python `str.strip()`. -/
def pyStrip (s : String) : String := String.mk (pyStripList s.toList)

/-- Python `str.lower()` (ASCII fragment). -/
def pyLower (s : String) : String := String.mk (s.toList.map Char.toLower)

/-- Decimal digit character, as in `Nat.digitChar`. -/
def decDigitChar : Nat → Char
  | 0 => '0' | 1 => '1' | 2 => '2' | 3 => '3' | 4 => '4'
  | 5 => '5' | 6 => '6' | 7 => '7' | 8 => '8' | 9 => '9'
  | _ => '*'

/-- Fueled decimal digit accumulation, mirroring `Nat.toDigitsCore` with base 10.
The fuel `n + 1` used by `natRepr` always suffices. -/
def natDigitsAux : Nat → Nat → List Char → List Char
  | 0, _, acc => acc
  | fuel + 1, n, acc =>
    let acc2 := decDigitChar (n % 10) :: acc
    if n / 10 = 0 then acc2 else natDigitsAux fuel (n / 10) acc2

/-- Decimal representation of a natural number (Python `str(n)` / f-string interpolation). -/
def natRepr (n : Nat) : String := String.mk (natDigitsAux (n + 1) n [])

/-! ## Hackathon variant: the `Agent` class and its retrying `process` method
(src/e2e_development_agent_Hackathon.py, lines 27-60).

The external completion service is a function from (attempt index, full prompt)
to either a successful completion text or the message of the raised exception.
`time.sleep(2)` is recorded in the `sleeps` field. -/

structure HistEntry where
  prompt : String
  response : String
deriving DecidableEq, Repr

structure Agent where
  name : String
  role : String
  model : String
  history : List HistEntry
deriving DecidableEq, Repr

/-- Observable outcome of one `Agent.process` call: the returned value
(`none` models Python returning `None`, possible only with `max_retries = 0`),
the agent history after the call, the number of completion-service invocations,
and the sequence of sleeps performed. -/
structure ProcOutcome where
  result : Option String
  history : List HistEntry
  calls : Nat
  sleeps : List Nat
deriving DecidableEq, Repr

/-- The f-string `full_prompt` built by `Agent.process` (lines 38-46); an empty
`content` string is falsy in Python and also gets the placeholder text. -/
def fullPromptOf (a : Agent) (prompt : String) (content : Option String) : String :=
  let contentVal :=
    match content with
    | some c => if c = "" then "No additional content provided" else c
    | none => "No additional content provided"
  "\n        You are a " ++ a.role ++ ". \n        \n        " ++ prompt ++
    "\n        \n        Content: " ++ contentVal ++
    "\n        \n        Respond in a structured, clear format.\n        "

/-- The retry loop of `Agent.process` (lines 48-60), iterating over the list of
attempt indices produced by `range(max_retries)`.  A successful call appends
`{prompt, response}` to the history and returns; a failure on the last attempt
returns the sentinel `"Error: " ++ e`; any other failure sleeps 2 seconds and
retries. -/
def attemptLoop (service : Nat → String → Except String String) (prompt full : String)
    (hist : List HistEntry) (maxRetries : Nat) : List Nat → ProcOutcome
  | [] => ⟨none, hist, 0, []⟩
  | attempt :: restAttempts =>
    match service attempt full with
    | Except.ok result => ⟨some result, hist ++ [⟨prompt, result⟩], 1, []⟩
    | Except.error e =>
      if attempt = maxRetries - 1 then ⟨some ("Error: " ++ e), hist, 1, []⟩
      else
        let rest := attemptLoop service prompt full hist maxRetries restAttempts
        ⟨rest.result, rest.history, rest.calls + 1, 2 :: rest.sleeps⟩

/-- `Agent.process(prompt, content, max_retries)` (lines 34-60).  `apiKeySet`
models the truthiness of `openai.api_key`. -/
def Agent.process (a : Agent) (apiKeySet : Bool)
    (service : Nat → String → Except String String)
    (prompt : String) (content : Option String) (maxRetries : Nat) : ProcOutcome :=
  if apiKeySet = false then
    ⟨some "Error: OpenAI API key is not set in environment variables. Please check your .env file.",
      a.history, 0, []⟩
  else
    attemptLoop service prompt (fullPromptOf a prompt content) a.history maxRetries
      (List.range maxRetries)

/-! ## Staged pipeline variant (src/e2e_development_agent.py)

### Roles and prompt templates (lines 30-36 and 61-159) -/

/-- The five agent roles, the keys of the `ROLES` and `prompt_templates` dicts. -/
inductive Role where
  | project_manager
  | designer
  | developer
  | tester
  | presenter
deriving DecidableEq, Repr

def roleName : Role → String
  | Role.project_manager => "project_manager"
  | Role.designer => "designer"
  | Role.developer => "developer"
  | Role.tester => "tester"
  | Role.presenter => "presenter"

/-- Dispatch of a role string against the five registered roles. -/
def roleOfString (s : String) : Option Role :=
  if s = "project_manager" then some Role.project_manager
  else if s = "designer" then some Role.designer
  else if s = "developer" then some Role.developer
  else if s = "tester" then some Role.tester
  else if s = "presenter" then some Role.presenter
  else none

def projectManagerTemplate : String :=
  "You are the Project Manager. Analyze the following requirements and provide a structured project plan:\n            \nRequirements:\n{requirements}\n\nCurrent conversation:\n{conversation}\n\nYour response should include:\n1. Project scope\n2. Main features to implement\n3. Technical requirements\n4. Timeline and milestones\n5. Task assignments for the team\n6. Next steps\n"

def designerTemplate : String :=
  "You are the UI/UX Designer. Create design specifications based on the following requirements and project plan:\n            \nRequirements:\n{requirements}\n\nProject Plan:\n{project_plan}\n\nCurrent conversation:\n{conversation}\n\nYour response should include:\n1. Wireframes description (describe key screens)\n2. UI components needed\n3. User flow diagrams\n4. Design system suggestions (colors, typography, etc.)\n5. Responsive design considerations\n"

def developerTemplate : String :=
  "You are the Developer. Write code based on the requirements and design specifications:\n            \nRequirements:\n{requirements}\n\nDesign Specifications:\n{design_specs}\n\nCurrent conversation:\n{conversation}\n\nYour response should include:\n1. Architecture overview\n2. Implementation approach\n3. Code structure\n4. Sample code for key components\n5. Dependencies and libraries needed\n6. Setup instructions\n"

def testerTemplate : String :=
  "You are the Tester. Create a test plan and test cases based on the requirements and implemented code:\n            \nRequirements:\n{requirements}\n\nImplementation:\n{implementation}\n\nCurrent conversation:\n{conversation}\n\nYour response should include:\n1. Test plan overview\n2. Test scenarios\n3. Test cases with expected results\n4. Testing approach (manual/automated)\n5. Edge cases to consider\n6. Potential bugs to look for\n"

def presenterTemplate : String :=
  "You are the Presenter. Create a presentation of the final product based on all the work done:\n            \nRequirements:\n{requirements}\n\nDesign:\n{design}\n\nImplementation:\n{implementation}\n\nTest Results:\n{test_results}\n\nCurrent conversation:\n{conversation}\n\nYour response should include:\n1. Introduction to the product\n2. Key features and functionality\n3. Technical highlights\n4. Implementation challenges and solutions\n5. Demo script\n6. Future enhancements\n"

def promptTemplate : Role → String
  | Role.project_manager => projectManagerTemplate
  | Role.designer => designerTemplate
  | Role.developer => developerTemplate
  | Role.tester => testerTemplate
  | Role.presenter => presenterTemplate

/-- Failure mode of looking up a role that is not registered
(a `KeyError` on the `prompt_templates` dict; `UnknownRoleError` in the spec). -/
inductive UnknownRoleError where
  | unknownRole
deriving DecidableEq, Repr

/-- `prompt_templates[role]` as a failing lookup over arbitrary role strings. -/
def get_template (role : String) : Except UnknownRoleError String :=
  match roleOfString role with
  | some r => Except.ok (promptTemplate r)
  | none => Except.error UnknownRoleError.unknownRole

/-! ### Pipeline state (lines 39-47) -/

/-- A conversation entry: `HumanMessage` or `AIMessage(content, name)`. -/
inductive Msg where
  | human (content : String)
  | ai (name : String) (content : String)
deriving DecidableEq, Repr

def Msg.content : Msg → String
  | Msg.human c => c
  | Msg.ai _ c => c

/-- A value of the `code_modules` dict: `{"language": ..., "code": ...}`. -/
structure CodeModule where
  language : String
  code : String
deriving DecidableEq, Repr

/-- The `AppState` TypedDict. -/
structure AppState where
  requirements : String
  messages : List Msg
  current_stage : String
  design_docs : List (String × String)
  code_modules : List (String × CodeModule)
  test_results : List (String × String)
  presentation : List (String × String)
  current_agent : String
deriving DecidableEq, Repr

/-- The initial state built by `main` after ingesting a document (lines 304-313). -/
def initState (req : String) : AppState :=
  ⟨req, [], "requirements", [], [], [], [], "project_manager"⟩

/-! ### Code-block extraction: `re.findall(r"```(\w+)?\n(.*?)```", text, re.DOTALL)`
(lines 206-211).  The pattern matches three backticks, an optional greedy run of
word characters that must be followed directly by a newline, and then a lazy
body up to the next three backticks. -/

/-- Python `\w` (ASCII fragment of the Unicode word class). -/
def isWordChar (c : Char) : Bool := c.isAlphanum || c = '_'

/-- Split the input at the first occurrence of three consecutive backticks:
the lazy `(.*?)` body followed by the closing fence. -/
def splitAtFence : List Char → Option (List Char × List Char)
  | '`' :: '`' :: '`' :: rest => some ([], rest)
  | c :: rest =>
    match splitAtFence rest with
    | some (pre, post) => some (c :: pre, post)
    | none => none
  | [] => none

/-- Try to match the whole regex at the current position: opening fence,
optional word-character tag (which the regex requires to be followed by a
newline), lazy body, closing fence.  Returns the tag group (`none` when the
optional group did not participate), the body group, and the rest of the
input after the match. -/
def tryMatchFence (l : List Char) : Option (Option (List Char) × List Char × List Char) :=
  match l with
  | '`' :: '`' :: '`' :: t =>
    let run := t.takeWhile isWordChar
    match t.dropWhile isWordChar with
    | '\n' :: t3 =>
      match splitAtFence t3 with
      | some (body, rest) => some ((if run.isEmpty then none else some run), body, rest)
      | none => none
    | _ => none
  | _ => none

/-- `re.findall` scanning loop: left to right, non-overlapping; on a failed
match the scan advances one character.  Fueled (each step consumes at least
one character, so fuel `l.length` suffices). -/
def findFencesAux : Nat → List Char → List (Option (List Char) × List Char)
  | 0, _ => []
  | _, [] => []
  | fuel + 1, c :: rest =>
    match tryMatchFence (c :: rest) with
    | some (tag, body, after) => (tag, body) :: findFencesAux fuel after
    | none => findFencesAux fuel rest

/-- All matches of the code-block regex, as (language group, body group) pairs;
the language group is `""` when the optional tag did not participate (Python
`re.findall` returns `''` for a non-participating group). -/
def findFences (text : String) : List (String × String) :=
  (findFencesAux text.toList.length text.toList).map
    (fun p => (match p.1 with | some run => String.mk run | none => "", String.mk p.2))

/-- One synthesized module name: `f"module_{i+1}"`. -/
def moduleName (i : Nat) : String := "module_" ++ natRepr i

/-- The developer-stage write loop (lines 207-211): for each match, in order,
store `{"language": lang.strip() if lang else "text", "code": code.strip()}`
under the 1-based positional name. -/
def codeModulesWrite (existing : List (String × CodeModule)) (response : String) :
    List (String × CodeModule) :=
  (findFences response).enum.foldl
    (fun d ic =>
      dictInsert (moduleName (ic.1 + 1))
        ⟨if ic.2.1 ≠ "" then pyStrip ic.2.1 else "text", pyStrip ic.2.2⟩ d)
    existing

/-- `extract_code_blocks(text)`: the extraction run against an empty module
dict, as in a fresh DEVELOPMENT stage. -/
def extract_code_blocks (text : String) : List (String × CodeModule) :=
  codeModulesWrite [] text

/-- Three consecutive backticks occur somewhere in the input. -/
def hasTripleBacktick : List Char → Bool
  | '`' :: '`' :: '`' :: _ => true
  | _ :: rest => hasTripleBacktick rest
  | [] => false

/-! ### Prompt construction inside `agent_fn` (lines 161-179) -/

/-- The conversation-history rendering loop (lines 162-167). -/
def conversationStr (msgs : List Msg) : String :=
  msgs.foldl
    (fun acc m =>
      match m with
      | Msg.human c => acc ++ "Human: " ++ c ++ "\n"
      | Msg.ai n c => acc ++ "AI (" ++ n ++ "): " ++ c ++ "\n")
    ""

/-- JSON string escaping for the fragment of `json.dumps` used below. -/
def jsonEscape (s : String) : String :=
  String.join (s.toList.map (fun c =>
    if c = '"' then "\\\""
    else if c = '\\' then "\\\\"
    else if c = '\n' then "\\n"
    else if c = '\t' then "\\t"
    else if c = '\r' then "\\r"
    else String.singleton c))

/-- `json.dumps(d, indent=2)` for a flat string-valued dict. -/
def jsonDumpsStrDict (d : List (String × String)) : String :=
  match d with
  | [] => "\x7b\x7d"
  | _ =>
    "\x7b\n" ++
      String.intercalate ",\n"
        (d.map (fun p => "  \"" ++ jsonEscape p.1 ++ "\": \"" ++ jsonEscape p.2 ++ "\"")) ++
      "\n\x7d"

/-- `json.dumps(d, indent=2)` for the nested `code_modules` dict. -/
def jsonDumpsCodeModules (d : List (String × CodeModule)) : String :=
  match d with
  | [] => "\x7b\x7d"
  | _ =>
    "\x7b\n" ++
      String.intercalate ",\n"
        (d.map (fun p =>
          "  \"" ++ jsonEscape p.1 ++ "\": \x7b\n    \"language\": \"" ++
            jsonEscape p.2.language ++ "\",\n    \"code\": \"" ++ jsonEscape p.2.code ++
            "\"\n  \x7d")) ++
      "\n\x7d"

/-- `project_plan` format value (line 174): the first message's content, gated on
a non-empty conversation and the stage being anything but `requirements`. -/
def projectPlanVal (s : AppState) : String :=
  if 0 < s.messages.length ∧ s.current_stage ≠ "requirements" then
    (s.messages.headD (Msg.human "")).content
  else ""

/-- `design_specs` format value (line 175). -/
def designSpecsVal (s : AppState) : String :=
  if s.current_stage ∈ ["requirements"] then "" else dictGetD s.design_docs "specifications" ""

/-- `implementation` format value (line 176). -/
def implementationVal (s : AppState) : String :=
  if s.current_stage ∈ ["requirements", "design"] then ""
  else jsonDumpsCodeModules s.code_modules

/-- `design` format value (line 177). -/
def designVal (s : AppState) : String :=
  if s.current_stage ∈ ["requirements"] then "" else jsonDumpsStrDict s.design_docs

/-- `test_results` format value (line 178). -/
def testResultsVal (s : AppState) : String :=
  if s.current_stage ∈ ["requirements", "design", "development"] then ""
  else jsonDumpsStrDict s.test_results

/-- Python `str.format` substitution loop, fueled (each step consumes at least
one character, so fuel `template.length` suffices).  The fixed templates contain
no brace escapes and every placeholder they use is among the supplied keys. -/
def formatArgsAux (args : List (String × String)) : Nat → List Char → List Char
  | 0, _ => []
  | _, [] => []
  | fuel + 1, c :: rest =>
    if c = '{' then
      let nameChars := rest.takeWhile (fun ch => ch ≠ '}')
      match rest.dropWhile (fun ch => ch ≠ '}') with
      | '}' :: rest3 =>
        (dictGetD args (String.mk nameChars) "").toList ++ formatArgsAux args fuel rest3
      | _ => []
    else c :: formatArgsAux args fuel rest

def formatTemplate (template : String) (args : List (String × String)) : String :=
  String.mk (formatArgsAux args template.toList.length template.toList)

/-- The full `template.format(...)` call of `agent_fn` (lines 170-179). -/
def buildPrompt (role : Role) (s : AppState) : String :=
  formatTemplate (promptTemplate role)
    [("requirements", s.requirements),
     ("conversation", conversationStr s.messages),
     ("project_plan", projectPlanVal s),
     ("design_specs", designSpecsVal s),
     ("implementation", implementationVal s),
     ("design", designVal s),
     ("test_results", testResultsVal s)]

/-- `llm.invoke(prompt).content` for the node of `role`. -/
def respOf (llm : String → String) (role : Role) (s : AppState) : String :=
  llm (buildPrompt role s)

/-! ### The stage controller: `agent_fn` (lines 59-231), `router` (lines 236-240),
and the compiled graph (lines 243-277). -/

/-- The node function produced by `create_agent_node(role, llm)`: build the
prompt, call the model, append the tagged response to the conversation, and
perform the stage-transition branch matching (role, current stage). -/
def agent_fn (llm : String → String) (role : Role) (state : AppState) : AppState :=
  let response := respOf llm role state
  let new_messages := state.messages ++ [Msg.ai (roleName role) response]
  if role = Role.project_manager ∧ state.current_stage = "requirements" then
    ⟨state.requirements, new_messages, "design", state.design_docs, state.code_modules,
      state.test_results, state.presentation, "designer"⟩
  else if role = Role.designer ∧ state.current_stage = "design" then
    ⟨state.requirements, new_messages, "development",
      dictInsert "specifications" response state.design_docs, state.code_modules,
      state.test_results, state.presentation, "developer"⟩
  else if role = Role.developer ∧ state.current_stage = "development" then
    ⟨state.requirements, new_messages, "testing", state.design_docs,
      codeModulesWrite state.code_modules response, state.test_results, state.presentation,
      "tester"⟩
  else if role = Role.tester ∧ state.current_stage = "testing" then
    ⟨state.requirements, new_messages, "presentation", state.design_docs, state.code_modules,
      dictInsert "test_plan" response state.test_results, state.presentation, "presenter"⟩
  else if role = Role.presenter ∧ state.current_stage = "presentation" then
    ⟨state.requirements, new_messages, "complete", state.design_docs, state.code_modules,
      state.test_results, dictInsert "content" response state.presentation,
      state.current_agent⟩
  else
    ⟨state.requirements, new_messages, state.current_stage, state.design_docs,
      state.code_modules, state.test_results, state.presentation, state.current_agent⟩

/-- The `router` function (lines 236-240): `END` is modelled as `none`. -/
def router (state : AppState) : Option Role :=
  if state.current_stage = "complete" then none else roleOfString state.current_agent

/-- One stage step: run the node of the currently active agent once
(the claim-level `tick`; `none` if the active agent string is unregistered). -/
def tick (llm : String → String) (s : AppState) : Option AppState :=
  match roleOfString s.current_agent with
  | some r => some (agent_fn llm r s)
  | none => none

/-- `tick` iterated `n` times. -/
def tickN (llm : String → String) : Nat → AppState → Option AppState
  | 0, s => some s
  | n + 1, s => (tick llm s).bind (tickN llm n)

/-- The loop performed by one `graph.invoke` call: run the node, consult the
conditional edge (`router`), stop at `END`, otherwise continue with the node
the router named.  Fueled with LangGraph's default `recursion_limit` of 25
(`none` models `GraphRecursionError`). -/
def invokeAux (llm : String → String) : Nat → Role → AppState → Option AppState
  | 0, _, _ => none
  | fuel + 1, r, s =>
    let s2 := agent_fn llm r s
    match router s2 with
    | none => some s2
    | some r2 => invokeAux llm fuel r2 s2

/-- One `graph.invoke(state)` call of the compiled graph (lines 243-277): the
entry edge `START -> "project_manager"` always enters at the project-manager
node, then conditional edges route from role to role until `END`. -/
def graphInvoke (llm : String → String) (s : AppState) : Option AppState :=
  invokeAux llm 25 Role.project_manager s

/-! ### Derived stage tables used only in theorem statements -/

/-- The successor function of the documented transition table. -/
def nextStage (st : String) : String :=
  if st = "requirements" then "design"
  else if st = "design" then "development"
  else if st = "development" then "testing"
  else if st = "testing" then "presentation"
  else if st = "presentation" then "complete"
  else st

/-- Position of a stage in the fixed stage order. -/
def stageIdx (st : String) : Nat :=
  if st = "requirements" then 0
  else if st = "design" then 1
  else if st = "development" then 2
  else if st = "testing" then 3
  else if st = "presentation" then 4
  else 5

/-- The five (stage, owning agent) pairs of the pipeline. -/
def pipelinePairs : List (String × String) :=
  [("requirements", "project_manager"), ("design", "designer"),
   ("development", "developer"), ("testing", "tester"),
   ("presentation", "presenter")]

/-- The unified Completion Client `complete(prompt) -> text`: an
`Agent.process`-style call with the repository-wide default `max_retries = 3`,
degrading to the sentinel text instead of raising.  (`.getD ""` is unreachable:
with `max_retries = 3` the loop always returns a string.) -/
def clientComplete (apiKeySet : Bool) (service : Nat → String → Except String String)
    (roleDesc : String) (prompt : String) (content : Option String) : String :=
  ((Agent.mk "agent" roleDesc "gpt-4o-mini" []).process apiKeySet service prompt content
      3).result.getD ""

/-! ## Hackathon variant: session state and the feedback submit handler
(src/e2e_development_agent_Hackathon.py, lines 393-409 and 536-589). -/

structure ChatMsg where
  role : String
  content : String
deriving DecidableEq, Repr

structure FbEntry where
  feedback : String
  response : String
deriving DecidableEq, Repr

/-- The session-state fields the feedback path touches or must preserve.
Progress-bar and status fields are display-only and omitted. -/
structure HackState where
  pdf_text : Option String
  processing : Bool
  results : List (String × String)
  chat_history : List ChatMsg
  feedback_history : List (String × List FbEntry)
deriving DecidableEq, Repr

/-- Revision prompt of the first feedback completion call (line 558). -/
def reviseFbPrompt (sectionLower feedback : String) : String :=
  "Revise the following " ++ sectionLower ++ " based on this feedback: " ++ feedback

/-- Summary prompt of the second feedback completion call (line 570). -/
def summaryFbPrompt (sectionLower feedback : String) : String :=
  "Describe in detail what changes you made to the " ++ sectionLower ++
    " based on this feedback: " ++ feedback ++
    ". Be specific about what was modified, added, or removed."

/-- The feedback submit handler (lines 536-589), parametrised by the completion
client `feedback_agent.process` is made of: `client prompt content` returns the
generated (or sentinel) text.  Returns the new state together with the list of
(prompt, content) completion calls issued, in order.  The `none` branch of the
`results` lookup is unreachable (the handler is only rendered for sections of
`results`; on a missing key Python would raise `KeyError`). -/
def submitFeedback (client : String → String → String) (st : HackState)
    (sect feedback : String) : HackState × List (String × String) :=
  if pyStrip feedback = "" then (st, [])
  else
    match dictGet? st.results sect with
    | none => (st, [])
    | some orig =>
      let chat1 := st.chat_history ++ [⟨"user", "Feedback on " ++ sect ++ ": " ++ feedback⟩]
      let p1 := reviseFbPrompt (pyLower sect) feedback
      let improved := client p1 orig
      let p2 := summaryFbPrompt (pyLower sect) feedback
      let c2 := "Original content: " ++ orig ++ "\n\nUpdated content: " ++ improved
      let changes := client p2 c2
      let fbh := dictInsert sect
        ((dictGetD st.feedback_history sect []) ++ [⟨feedback, changes⟩]) st.feedback_history
      let chat2 := chat1 ++ [⟨"ai_support", changes⟩]
      (⟨st.pdf_text, st.processing, dictInsert sect improved st.results, chat2, fbh⟩,
        [(p1, orig), (p2, c2)])

/-- Unfueled decimal digit list, used only to reason about `natRepr`. -/
def natDigitsList (n : Nat) : List Char :=
  if n < 10 then [decDigitChar n]
  else natDigitsList (n / 10) ++ [decDigitChar (n % 10)]
termination_by n
decreasing_by
  exact Nat.div_lt_self (by omega) (by omega)


/-! ## Helper lemmas -/

theorem dictGet?_cons {α : Type} (k2 : String) (v2 : α) (rest : List (String × α)) (k : String) :
    dictGet? ((k2, v2) :: rest) k = if k2 = k then some v2 else dictGet? rest k := by
  by_cases h : k2 = k <;> simp [dictGet?, List.find?, h]

theorem dictGet?_insert_self {α : Type} (k : String) (v : α) (d : List (String × α)) :
    dictGet? (dictInsert k v d) k = some v := by
  induction d with
  | nil => simp [dictInsert, dictGet?_cons]
  | cons p rest ih =>
    obtain ⟨k2, v2⟩ := p
    rw [dictInsert]
    by_cases h : k2 = k
    · simp [h, dictGet?_cons]
    · rw [if_neg h, dictGet?_cons, if_neg h]
      exact ih

theorem dictGet?_insert_ne {α : Type} (k k2 : String) (v : α) (d : List (String × α))
    (h : k2 ≠ k) : dictGet? (dictInsert k v d) k2 = dictGet? d k2 := by
  induction d with
  | nil => simp [dictInsert, dictGet?_cons, Ne.symm h]
  | cons p rest ih =>
    obtain ⟨k3, v3⟩ := p
    rw [dictInsert]
    by_cases h3 : k3 = k
    · subst h3
      rw [if_pos rfl, dictGet?_cons, dictGet?_cons, if_neg (Ne.symm h), if_neg (Ne.symm h)]
    · rw [if_neg h3, dictGet?_cons, dictGet?_cons]
      by_cases h4 : k3 = k2
      · rw [if_pos h4, if_pos h4]
      · rw [if_neg h4, if_neg h4]
        exact ih

theorem dictInsert_fresh {α : Type} (k : String) (v : α) (d : List (String × α))
    (h : dictGet? d k = none) : dictInsert k v d = d ++ [(k, v)] := by
  induction d with
  | nil => simp [dictInsert]
  | cons p rest ih =>
    obtain ⟨k2, v2⟩ := p
    rw [dictGet?_cons] at h
    by_cases h2 : k2 = k
    · rw [if_pos h2] at h
      exact absurd h (by simp)
    · rw [if_neg h2] at h
      rw [dictInsert, if_neg h2, List.cons_append]
      rw [ih h]

theorem dictGet?_append {α : Type} (d1 d2 : List (String × α)) (k : String) :
    dictGet? (d1 ++ d2) k =
      match dictGet? d1 k with
      | some v => some v
      | none => dictGet? d2 k := by
  induction d1 with
  | nil => simp [dictGet?]
  | cons p rest ih =>
    obtain ⟨k2, v2⟩ := p
    rw [List.cons_append, dictGet?_cons, dictGet?_cons]
    by_cases h : k2 = k
    · rw [if_pos h, if_pos h]
    · rw [if_neg h, if_neg h, ih]

/-! ### Injectivity of the decimal representation -/

theorem decDigitChar_inj (m n : Nat) (hm : m < 10) (hn : n < 10)
    (h : decDigitChar m = decDigitChar n) : m = n := by
  have key : ∀ a b : Fin 10, decDigitChar a.val = decDigitChar b.val → a = b := by decide
  have := key ⟨m, hm⟩ ⟨n, hn⟩ h
  simpa [Fin.ext_iff] using this

theorem natDigitsList_eq (n : Nat) :
    natDigitsList n =
      if n < 10 then [decDigitChar n]
      else natDigitsList (n / 10) ++ [decDigitChar (n % 10)] := by
  rw [natDigitsList]

theorem natDigitsList_ne_nil (n : Nat) : natDigitsList n ≠ [] := by
  rw [natDigitsList_eq]
  split
  · simp
  · simp

theorem natDigitsAux_spec : ∀ (fuel n : Nat) (acc : List Char), n < 10 ^ (fuel + 1) →
    natDigitsAux (fuel + 1) n acc = natDigitsList n ++ acc := by
  intro fuel
  induction fuel with
  | zero =>
    intro n acc h
    have hn : n < 10 := by simpa using h
    have h0 : n / 10 = 0 := by omega
    have hmod : n % 10 = n := by omega
    rw [natDigitsAux, natDigitsList_eq]
    simp [h0, hn, hmod]
  | succ fuel ih =>
    intro n acc h
    rw [natDigitsAux]
    by_cases h0 : n / 10 = 0
    · have hn : n < 10 := by omega
      have hmod : n % 10 = n := by omega
      rw [natDigitsList_eq]
      simp [h0, hn, hmod]
    · have hn : ¬ n < 10 := by omega
      simp only [h0, if_false]
      have hdiv : n / 10 < 10 ^ (fuel + 1) := by
        rw [Nat.div_lt_iff_lt_mul (by omega : 0 < 10)]
        calc n < 10 ^ (fuel + 1 + 1) := h
        _ = 10 ^ (fuel + 1) * 10 := by ring
      rw [ih (n / 10) _ hdiv]
      conv_rhs => rw [natDigitsList_eq]
      simp [hn]

theorem natDigitsList_inj : ∀ m n : Nat, natDigitsList m = natDigitsList n → m = n := by
  intro m
  induction m using Nat.strong_induction_on with
  | _ m ih =>
    intro n h
    by_cases hm : m < 10 <;> by_cases hn : n < 10
    · rw [natDigitsList_eq m, natDigitsList_eq n, if_pos hm, if_pos hn] at h
      simp only [List.cons.injEq, and_true] at h
      exact decDigitChar_inj m n hm hn h
    · rw [natDigitsList_eq m, natDigitsList_eq n, if_pos hm, if_neg hn] at h
      have hlen := congrArg List.length h
      simp only [List.length_cons, List.length_nil, List.length_append] at hlen
      have h0 : (natDigitsList (n / 10)).length = 0 := by omega
      exact absurd (List.length_eq_zero.mp h0) (natDigitsList_ne_nil (n / 10))
    · rw [natDigitsList_eq m, natDigitsList_eq n, if_neg hm, if_pos hn] at h
      have hlen := congrArg List.length h
      simp only [List.length_cons, List.length_nil, List.length_append] at hlen
      have h0 : (natDigitsList (m / 10)).length = 0 := by omega
      exact absurd (List.length_eq_zero.mp h0) (natDigitsList_ne_nil (m / 10))
    · rw [natDigitsList_eq m, natDigitsList_eq n, if_neg hm, if_neg hn] at h
      obtain ⟨h1, h2⟩ := List.append_inj' h (by simp)
      have hdiv : m / 10 = n / 10 :=
        ih (m / 10) (Nat.div_lt_self (by omega) (by omega)) (n / 10) h1
      simp only [List.cons.injEq, and_true] at h2
      have hmod := decDigitChar_inj _ _ (Nat.mod_lt _ (by omega)) (Nat.mod_lt _ (by omega)) h2
      omega

theorem natRepr_eq_natDigitsList (n : Nat) : natRepr n = String.mk (natDigitsList n) := by
  rw [natRepr, natDigitsAux_spec n n []]
  · simp
  · calc n < 10 ^ n := Nat.lt_pow_self (by omega) n
    _ ≤ 10 ^ (n + 1) := Nat.pow_le_pow_right (by omega) (by omega)

theorem natRepr_inj (m n : Nat) (h : natRepr m = natRepr n) : m = n := by
  rw [natRepr_eq_natDigitsList, natRepr_eq_natDigitsList] at h
  have hd : natDigitsList m = natDigitsList n := by injection h
  exact natDigitsList_inj m n hd

theorem moduleName_inj (i j : Nat) (h : moduleName i = moduleName j) : i = j := by
  apply natRepr_inj
  have hd := congrArg String.data h
  rw [moduleName, moduleName, String.data_append, String.data_append] at hd
  have hc := List.append_cancel_left hd
  apply String.ext
  exact hc

/-! ## Claim C9: template lookup -/

/-- C9: template lookup is defined exactly for the five canonical roles,
returning each role's fixed template string, and fails with
`UnknownRoleError` for every other role string. -/
theorem c9_get_template_exactly_five_roles :
    get_template "project_manager" = Except.ok projectManagerTemplate ∧
    get_template "designer" = Except.ok designerTemplate ∧
    get_template "developer" = Except.ok developerTemplate ∧
    get_template "tester" = Except.ok testerTemplate ∧
    get_template "presenter" = Except.ok presenterTemplate ∧
    ∀ role : String,
      role ∉ ["project_manager", "designer", "developer", "tester", "presenter"] →
      get_template role = Except.error UnknownRoleError.unknownRole := by
  refine ⟨rfl, rfl, rfl, rfl, rfl, ?_⟩
  intro role h
  simp only [List.mem_cons, List.mem_singleton, not_or] at h
  obtain ⟨h1, h2, h3, h4, h5, _⟩ := h
  simp [get_template, roleOfString, h1, h2, h3, h4, h5]

/-- Witness for C9: a role string outside the registry is rejected. -/
theorem c9_get_template_exactly_five_roles_witness :
    get_template "architect" = Except.error UnknownRoleError.unknownRole :=
  c9_get_template_exactly_five_roles.2.2.2.2.2 "architect" (by decide)

/-! ## Claim C7: empty or whitespace-only feedback is a no-op -/

/-- C7: submitting feedback whose `strip()` is empty is rejected before any
completion call: no completion call is issued and the session state
(artifacts, feedback history, chat history) is unchanged. -/
theorem c7_empty_feedback_noop (client : String → String → String) (st : HackState)
    (sect feedback : String) (h : pyStrip feedback = "") :
    submitFeedback client st sect feedback = (st, []) := by
  rw [submitFeedback, if_pos h]

/-- Witness for C7: whitespace-only feedback on a populated session. -/
theorem c7_empty_feedback_noop_witness :
    submitFeedback (fun _ _ => "REVISED")
      ⟨some "doc", false, [("User Stories", "orig")], [], []⟩ "User Stories" "  \n\t " =
      (⟨some "doc", false, [("User Stories", "orig")], [], []⟩, []) :=
  c7_empty_feedback_noop (fun _ _ => "REVISED")
    ⟨some "doc", false, [("User Stories", "orig")], [], []⟩ "User Stories" "  \n\t " (by decide)

/-! ## Claim C8: non-empty feedback issues two completion calls and only
touches the targeted section -/

/-- C8: for a section present in `results` and non-empty feedback, the submit
handler issues exactly two sequential completion calls — first the revision
call on the original artifact, then the summary call on original plus revised
text — overwrites only the targeted section's artifact entry (every other
section is unchanged), leaves the pipeline-progress fields unchanged, and
appends the feedback together with the change summary to the feedback-history
log keyed by that section. -/
theorem c8_feedback_two_calls_frame (client : String → String → String) (st : HackState)
    (sect feedback orig : String) (hsect : dictGet? st.results sect = some orig)
    (hfb : pyStrip feedback ≠ "") :
    ∃ improved changes : String,
      improved = client (reviseFbPrompt (pyLower sect) feedback) orig ∧
      changes = client (summaryFbPrompt (pyLower sect) feedback)
        ("Original content: " ++ orig ++ "\n\nUpdated content: " ++ improved) ∧
      submitFeedback client st sect feedback =
        (⟨st.pdf_text, st.processing,
          dictInsert sect improved st.results,
          st.chat_history ++
            [⟨"user", "Feedback on " ++ sect ++ ": " ++ feedback⟩, ⟨"ai_support", changes⟩],
          dictInsert sect ((dictGetD st.feedback_history sect []) ++ [⟨feedback, changes⟩])
            st.feedback_history⟩,
         [(reviseFbPrompt (pyLower sect) feedback, orig),
          (summaryFbPrompt (pyLower sect) feedback,
           "Original content: " ++ orig ++ "\n\nUpdated content: " ++ improved)]) ∧
      (submitFeedback client st sect feedback).2.length = 2 ∧
      dictGet? (submitFeedback client st sect feedback).1.results sect = some improved ∧
      (∀ s2, s2 ≠ sect →
        dictGet? (submitFeedback client st sect feedback).1.results s2 =
          dictGet? st.results s2) ∧
      (∀ s2, s2 ≠ sect →
        dictGet? (submitFeedback client st sect feedback).1.feedback_history s2 =
          dictGet? st.feedback_history s2) ∧
      dictGet? (submitFeedback client st sect feedback).1.feedback_history sect =
        some ((dictGetD st.feedback_history sect []) ++ [⟨feedback, changes⟩]) ∧
      (submitFeedback client st sect feedback).1.pdf_text = st.pdf_text ∧
      (submitFeedback client st sect feedback).1.processing = st.processing := by
  have heq : submitFeedback client st sect feedback =
      (⟨st.pdf_text, st.processing,
        dictInsert sect (client (reviseFbPrompt (pyLower sect) feedback) orig) st.results,
        st.chat_history ++
          [⟨"user", "Feedback on " ++ sect ++ ": " ++ feedback⟩,
           ⟨"ai_support",
            client (summaryFbPrompt (pyLower sect) feedback)
              ("Original content: " ++ orig ++ "\n\nUpdated content: " ++
                client (reviseFbPrompt (pyLower sect) feedback) orig)⟩],
        dictInsert sect
          ((dictGetD st.feedback_history sect []) ++
            [⟨feedback,
              client (summaryFbPrompt (pyLower sect) feedback)
                ("Original content: " ++ orig ++ "\n\nUpdated content: " ++
                  client (reviseFbPrompt (pyLower sect) feedback) orig)⟩])
          st.feedback_history⟩,
       [(reviseFbPrompt (pyLower sect) feedback, orig),
        (summaryFbPrompt (pyLower sect) feedback,
         "Original content: " ++ orig ++ "\n\nUpdated content: " ++
           client (reviseFbPrompt (pyLower sect) feedback) orig)]) := by
    rw [submitFeedback, if_neg hfb, hsect]
    simp
  refine ⟨_, _, rfl, rfl, heq, ?_, ?_, ?_, ?_, ?_, ?_, ?_⟩
  · rw [heq]
    rfl
  · rw [heq]
    exact dictGet?_insert_self _ _ _
  · intro s2 h2
    rw [heq]
    exact dictGet?_insert_ne _ _ _ _ h2
  · intro s2 h2
    rw [heq]
    exact dictGet?_insert_ne _ _ _ _ h2
  · rw [heq]
    exact dictGet?_insert_self _ _ _
  · rw [heq]
  · rw [heq]

/-- Witness for C8: a concrete session, section and feedback text. -/
theorem c8_feedback_two_calls_frame_witness :
    ∃ improved changes : String,
      improved = (fun _ _ => "REV") (reviseFbPrompt (pyLower "User Stories") "add login") "orig" ∧
      changes = (fun _ _ => "REV") (summaryFbPrompt (pyLower "User Stories") "add login")
        ("Original content: " ++ "orig" ++ "\n\nUpdated content: " ++ improved) ∧
      submitFeedback (fun _ _ => "REV")
          ⟨some "doc", false, [("User Stories", "orig"), ("Test Cases", "tc")], [], []⟩
          "User Stories" "add login" =
        (⟨some "doc", false,
          dictInsert "User Stories" improved [("User Stories", "orig"), ("Test Cases", "tc")],
          [] ++ [⟨"user", "Feedback on " ++ "User Stories" ++ ": " ++ "add login"⟩,
                 ⟨"ai_support", changes⟩],
          dictInsert "User Stories" ((dictGetD [] "User Stories" []) ++ [⟨"add login", changes⟩])
            []⟩,
         [(reviseFbPrompt (pyLower "User Stories") "add login", "orig"),
          (summaryFbPrompt (pyLower "User Stories") "add login",
           "Original content: " ++ "orig" ++ "\n\nUpdated content: " ++ improved)]) ∧
      (submitFeedback (fun _ _ => "REV")
          ⟨some "doc", false, [("User Stories", "orig"), ("Test Cases", "tc")], [], []⟩
          "User Stories" "add login").2.length = 2 ∧
      dictGet? (submitFeedback (fun _ _ => "REV")
          ⟨some "doc", false, [("User Stories", "orig"), ("Test Cases", "tc")], [], []⟩
          "User Stories" "add login").1.results "User Stories" = some improved ∧
      (∀ s2, s2 ≠ "User Stories" →
        dictGet? (submitFeedback (fun _ _ => "REV")
            ⟨some "doc", false, [("User Stories", "orig"), ("Test Cases", "tc")], [], []⟩
            "User Stories" "add login").1.results s2 =
          dictGet? [("User Stories", "orig"), ("Test Cases", "tc")] s2) ∧
      (∀ s2, s2 ≠ "User Stories" →
        dictGet? (submitFeedback (fun _ _ => "REV")
            ⟨some "doc", false, [("User Stories", "orig"), ("Test Cases", "tc")], [], []⟩
            "User Stories" "add login").1.feedback_history s2 =
          dictGet? ([] : List (String × List FbEntry)) s2) ∧
      dictGet? (submitFeedback (fun _ _ => "REV")
          ⟨some "doc", false, [("User Stories", "orig"), ("Test Cases", "tc")], [], []⟩
          "User Stories" "add login").1.feedback_history "User Stories" =
        some ((dictGetD [] "User Stories" []) ++ [⟨"add login", changes⟩]) ∧
      (submitFeedback (fun _ _ => "REV")
          ⟨some "doc", false, [("User Stories", "orig"), ("Test Cases", "tc")], [], []⟩
          "User Stories" "add login").1.pdf_text = some "doc" ∧
      (submitFeedback (fun _ _ => "REV")
          ⟨some "doc", false, [("User Stories", "orig"), ("Test Cases", "tc")], [], []⟩
          "User Stories" "add login").1.processing = false :=
  c8_feedback_two_calls_frame (fun _ _ => "REV")
    ⟨some "doc", false, [("User Stories", "orig"), ("Test Cases", "tc")], [], []⟩
    "User Stories" "add login" "orig" (by decide) (by decide)

/-! ## Claim C3: retry policy of the Completion Client -/

/-- C3: with `max_retries = 3`, a service failing on the first two calls and
succeeding on the third makes `process` return the successful result after
exactly 3 service invocations; a service that always fails makes `process`
return the `"Error: ..."` sentinel (instead of raising) after exactly 3
invocations; in both cases a fixed 2-second sleep separates consecutive
attempts. -/
theorem c3_retry_behavior (a : Agent) (service : Nat → String → Except String String)
    (prompt : String) (content : Option String) :
    (∀ e0 e1 r : String,
      service 0 (fullPromptOf a prompt content) = Except.error e0 →
      service 1 (fullPromptOf a prompt content) = Except.error e1 →
      service 2 (fullPromptOf a prompt content) = Except.ok r →
      a.process true service prompt content 3 =
        ⟨some r, a.history ++ [⟨prompt, r⟩], 3, [2, 2]⟩) ∧
    (∀ err : Nat → String,
      (∀ n, service n (fullPromptOf a prompt content) = Except.error (err n)) →
      a.process true service prompt content 3 =
        ⟨some ("Error: " ++ err 2), a.history, 3, [2, 2]⟩) := by
  constructor
  · intro e0 e1 r h0 h1 h2
    rw [Agent.process, if_neg (by decide : ¬ (true = false)),
      show List.range 3 = [0, 1, 2] from rfl]
    simp [attemptLoop, h0, h1, h2]
  · intro err hfail
    rw [Agent.process, if_neg (by decide : ¬ (true = false)),
      show List.range 3 = [0, 1, 2] from rfl]
    simp [attemptLoop, hfail 0, hfail 1, hfail 2]

/-- Witness for C3: a concrete fail-twice-then-succeed service and a concrete
always-failing service. -/
theorem c3_retry_behavior_witness :
    (Agent.mk "n" "r" "gpt-4o-mini" []).process true
        (fun n _ => if n = 2 then Except.ok "DONE" else Except.error "boom")
        "p" none 3 =
      ⟨some "DONE", [] ++ [⟨"p", "DONE"⟩], 3, [2, 2]⟩ ∧
    (Agent.mk "n" "r" "gpt-4o-mini" []).process true
        (fun _ _ => Except.error "down") "p" none 3 =
      ⟨some ("Error: " ++ "down"), [], 3, [2, 2]⟩ := by
  constructor
  · exact (c3_retry_behavior (Agent.mk "n" "r" "gpt-4o-mini" [])
      (fun n _ => if n = 2 then Except.ok "DONE" else Except.error "boom") "p" none).1
      "boom" "boom" "DONE" rfl rfl rfl
  · exact (c3_retry_behavior (Agent.mk "n" "r" "gpt-4o-mini" [])
      (fun _ _ => Except.error "down") "p" none).2 (fun _ => "down") (fun _ => rfl)

/-! ## Claim C10: history is appended exactly on success; `process` never raises -/

/-- The retry loop either succeeds (appending exactly one `{prompt, response}`
record) or leaves the history unchanged and returns `None` or an error
sentinel. -/
theorem attemptLoop_history_dichotomy (service : Nat → String → Except String String)
    (prompt full : String) (maxRetries : Nat) :
    ∀ (attempts : List Nat) (hist : List HistEntry),
      (∃ k r, service k full = Except.ok r ∧
        (attemptLoop service prompt full hist maxRetries attempts).result = some r ∧
        (attemptLoop service prompt full hist maxRetries attempts).history =
          hist ++ [⟨prompt, r⟩]) ∨
      ((attemptLoop service prompt full hist maxRetries attempts).history = hist ∧
        ((attemptLoop service prompt full hist maxRetries attempts).result = none ∨
         ∃ e, (attemptLoop service prompt full hist maxRetries attempts).result =
            some ("Error: " ++ e) ∧ ∃ k, service k full = Except.error e)) := by
  intro attempts
  induction attempts with
  | nil =>
    intro hist
    right
    exact ⟨rfl, Or.inl rfl⟩
  | cons attempt rest ih =>
    intro hist
    cases hs : service attempt full with
    | ok r =>
      left
      exact ⟨attempt, r, hs, by simp [attemptLoop, hs], by simp [attemptLoop, hs]⟩
    | error e =>
      by_cases hif : attempt = maxRetries - 1
      · right
        refine ⟨?_, Or.inr ⟨e, ?_, attempt, hs⟩⟩
        · simp only [attemptLoop]
          rw [hs]
          simp [hif]
        · simp only [attemptLoop]
          rw [hs]
          simp [hif]
      · rcases ih hist with ⟨k, r, hk, hres, hh⟩ | ⟨hh, hres⟩
        · left
          exact ⟨k, r, hk, by simp [attemptLoop, hs, hif, hres], by simp [attemptLoop, hs, hif, hh]⟩
        · right
          refine ⟨by simp [attemptLoop, hs, hif, hh], ?_⟩
          rcases hres with hres | ⟨e2, hres, k, hk⟩
          · exact Or.inl (by simp [attemptLoop, hs, hif, hres])
          · exact Or.inr ⟨e2, by simp [attemptLoop, hs, hif, hres], k, hk⟩

/-- C10: `Agent.process` appends a `{prompt, response}` record to the history
exactly when a completion call succeeds; when it returns an error string
instead (API key not set, or every retry attempt failed) the history is
unchanged; and it always returns a value (modelled as a total function) rather
than raising. -/
theorem c10_process_history_iff_success (a : Agent) (apiKeySet : Bool)
    (service : Nat → String → Except String String) (prompt : String)
    (content : Option String) (maxRetries : Nat) :
    (∃ k r, service k (fullPromptOf a prompt content) = Except.ok r ∧
      (a.process apiKeySet service prompt content maxRetries).result = some r ∧
      (a.process apiKeySet service prompt content maxRetries).history =
        a.history ++ [⟨prompt, r⟩]) ∨
    ((a.process apiKeySet service prompt content maxRetries).history = a.history ∧
      ((a.process apiKeySet service prompt content maxRetries).result = none ∨
       (a.process apiKeySet service prompt content maxRetries).result =
         some "Error: OpenAI API key is not set in environment variables. Please check your .env file." ∨
       ∃ e, (a.process apiKeySet service prompt content maxRetries).result =
          some ("Error: " ++ e) ∧
         ∃ k, service k (fullPromptOf a prompt content) = Except.error e)) := by
  cases apiKeySet with
  | false =>
    right
    exact ⟨rfl, Or.inr (Or.inl rfl)⟩
  | true =>
    have hproc : a.process true service prompt content maxRetries =
        attemptLoop service prompt (fullPromptOf a prompt content) a.history maxRetries
          (List.range maxRetries) := by
      rw [Agent.process, if_neg (by decide : ¬ (true = false))]
    rcases attemptLoop_history_dichotomy service prompt (fullPromptOf a prompt content)
        maxRetries (List.range maxRetries) a.history with ⟨k, r, hk, hres, hh⟩ | ⟨hh, hres⟩
    · left
      exact ⟨k, r, hk, by rw [hproc]; exact hres, by rw [hproc]; exact hh⟩
    · right
      refine ⟨by rw [hproc]; exact hh, ?_⟩
      rcases hres with hres | ⟨e, hres, k, hk⟩
      · exact Or.inl (by rw [hproc]; exact hres)
      · exact Or.inr (Or.inr ⟨e, by rw [hproc]; exact hres, k, hk⟩)

/-! ## Claim C2: an exhausted completion call never halts the pipeline -/

/-- With a service that always fails, the Completion Client returns the
failure-sentinel text instead of raising. -/
theorem clientComplete_always_fail (service : Nat → String → Except String String)
    (e : String) (hfail : ∀ n p, service n p = Except.error e)
    (roleDesc : String) (content : Option String) :
    ∀ prompt, clientComplete true service roleDesc prompt content = "Error: " ++ e := by
  intro prompt
  rw [clientComplete, Agent.process, if_neg (by decide : ¬ (true = false)),
    show List.range 3 = [0, 1, 2] from rfl]
  simp [attemptLoop, hfail]

/-- C2: for every pipeline stage, when the completion call fails
non-recoverably (retries exhausted), the stage step still completes: the
failure-sentinel text is recorded as the stage's conversation content and in
the artifact write of the transition table, and the stage still advances, so a
failed completion call never halts the pipeline. -/
theorem c2_sentinel_recorded_stage_advances (service : Nat → String → Except String String)
    (e : String) (hfail : ∀ n p, service n p = Except.error e)
    (roleDesc : String) (content : Option String) (s : AppState)
    (hmatch : (s.current_stage, s.current_agent) ∈ pipelinePairs) :
    ∃ s' : AppState,
      tick (fun p => clientComplete true service roleDesc p content) s = some s' ∧
      s'.messages = s.messages ++ [Msg.ai s.current_agent ("Error: " ++ e)] ∧
      s'.current_stage = nextStage s.current_stage ∧
      stageIdx s'.current_stage = stageIdx s.current_stage + 1 ∧
      (s.current_stage = "requirements" →
        s'.design_docs = s.design_docs ∧ s'.code_modules = s.code_modules ∧
        s'.test_results = s.test_results ∧ s'.presentation = s.presentation) ∧
      (s.current_stage = "design" →
        s'.design_docs = dictInsert "specifications" ("Error: " ++ e) s.design_docs) ∧
      (s.current_stage = "development" →
        s'.code_modules = codeModulesWrite s.code_modules ("Error: " ++ e)) ∧
      (s.current_stage = "testing" →
        s'.test_results = dictInsert "test_plan" ("Error: " ++ e) s.test_results) ∧
      (s.current_stage = "presentation" →
        s'.presentation = dictInsert "content" ("Error: " ++ e) s.presentation) := by
  have hsent := clientComplete_always_fail service e hfail roleDesc content
  simp only [pipelinePairs, List.mem_cons, List.not_mem_nil, or_false,
    Prod.mk.injEq] at hmatch
  rcases hmatch with ⟨hst, hag⟩ | ⟨hst, hag⟩ | ⟨hst, hag⟩ | ⟨hst, hag⟩ | ⟨hst, hag⟩
  · refine ⟨agent_fn (fun p => clientComplete true service roleDesc p content)
      Role.project_manager s, ?_, ?_, ?_, ?_, ?_, ?_, ?_, ?_, ?_⟩ <;>
      simp [tick, agent_fn, hst, hag, roleOfString, respOf, hsent, nextStage, stageIdx, roleName]
  · refine ⟨agent_fn (fun p => clientComplete true service roleDesc p content)
      Role.designer s, ?_, ?_, ?_, ?_, ?_, ?_, ?_, ?_, ?_⟩ <;>
      simp [tick, agent_fn, hst, hag, roleOfString, respOf, hsent, nextStage, stageIdx, roleName]
  · refine ⟨agent_fn (fun p => clientComplete true service roleDesc p content)
      Role.developer s, ?_, ?_, ?_, ?_, ?_, ?_, ?_, ?_, ?_⟩ <;>
      simp [tick, agent_fn, hst, hag, roleOfString, respOf, hsent, nextStage, stageIdx, roleName]
  · refine ⟨agent_fn (fun p => clientComplete true service roleDesc p content)
      Role.tester s, ?_, ?_, ?_, ?_, ?_, ?_, ?_, ?_, ?_⟩ <;>
      simp [tick, agent_fn, hst, hag, roleOfString, respOf, hsent, nextStage, stageIdx, roleName]
  · refine ⟨agent_fn (fun p => clientComplete true service roleDesc p content)
      Role.presenter s, ?_, ?_, ?_, ?_, ?_, ?_, ?_, ?_, ?_⟩ <;>
      simp [tick, agent_fn, hst, hag, roleOfString, respOf, hsent, nextStage, stageIdx, roleName]

/-- Witness for C2: an always-failing concrete service at the initial stage. -/
theorem c2_sentinel_recorded_stage_advances_witness :
    ∃ s' : AppState,
      tick (fun p => clientComplete true (fun _ _ => Except.error "boom") "r" p none)
        (initState "req") = some s' ∧
      s'.current_stage = "design" ∧
      s'.messages = [Msg.ai "project_manager" ("Error: " ++ "boom")] := by
  obtain ⟨s', h1, h2, h3, _⟩ :=
    c2_sentinel_recorded_stage_advances (fun _ _ => Except.error "boom") "boom"
      (fun _ _ => rfl) "r" none (initState "req") (by decide)
  exact ⟨s', h1, by rw [h3]; rfl, by rw [h2]; rfl⟩

/-! ## Claim C1: five ticks drive the pipeline from requirements to complete -/

/-- C1: from the initial state (stage `requirements`, active agent
`project_manager`, empty artifacts), five stage steps reach stage `complete`,
visiting `design`, `development`, `testing`, `presentation` exactly once and in
that order; each step invokes exactly the role owning the current stage,
appends that role's tagged output to the conversation, and performs the
artifact write of the transition table. -/
theorem c1_five_ticks_run_pipeline (llm : String → String) (req : String) :
    ∃ s1 s2 s3 s4 s5 : AppState,
      tick llm (initState req) = some s1 ∧ tick llm s1 = some s2 ∧
      tick llm s2 = some s3 ∧ tick llm s3 = some s4 ∧ tick llm s4 = some s5 ∧
      tickN llm 5 (initState req) = some s5 ∧
      (initState req).current_stage = "requirements" ∧
      s1.current_stage = "design" ∧ s2.current_stage = "development" ∧
      s3.current_stage = "testing" ∧ s4.current_stage = "presentation" ∧
      s5.current_stage = "complete" ∧
      ((initState req).current_stage, (initState req).current_agent) ∈ pipelinePairs ∧
      (s1.current_stage, s1.current_agent) ∈ pipelinePairs ∧
      (s2.current_stage, s2.current_agent) ∈ pipelinePairs ∧
      (s3.current_stage, s3.current_agent) ∈ pipelinePairs ∧
      (s4.current_stage, s4.current_agent) ∈ pipelinePairs ∧
      s1.messages = (initState req).messages ++
        [Msg.ai "project_manager" (respOf llm Role.project_manager (initState req))] ∧
      s2.messages = s1.messages ++ [Msg.ai "designer" (respOf llm Role.designer s1)] ∧
      s3.messages = s2.messages ++ [Msg.ai "developer" (respOf llm Role.developer s2)] ∧
      s4.messages = s3.messages ++ [Msg.ai "tester" (respOf llm Role.tester s3)] ∧
      s5.messages = s4.messages ++ [Msg.ai "presenter" (respOf llm Role.presenter s4)] ∧
      s1.design_docs = [] ∧ s1.code_modules = [] ∧ s1.test_results = [] ∧
      s1.presentation = [] ∧
      s2.design_docs = dictInsert "specifications" (respOf llm Role.designer s1)
        s1.design_docs ∧
      s2.code_modules = s1.code_modules ∧ s2.test_results = s1.test_results ∧
      s2.presentation = s1.presentation ∧
      s3.code_modules = codeModulesWrite s2.code_modules (respOf llm Role.developer s2) ∧
      s3.design_docs = s2.design_docs ∧ s3.test_results = s2.test_results ∧
      s3.presentation = s2.presentation ∧
      s4.test_results = dictInsert "test_plan" (respOf llm Role.tester s3) s3.test_results ∧
      s4.design_docs = s3.design_docs ∧ s4.code_modules = s3.code_modules ∧
      s4.presentation = s3.presentation ∧
      s5.presentation = dictInsert "content" (respOf llm Role.presenter s4)
        s4.presentation ∧
      s5.design_docs = s4.design_docs ∧ s5.code_modules = s4.code_modules ∧
      s5.test_results = s4.test_results :=
  ⟨_, _, _, _, _, rfl, rfl, rfl, rfl, rfl, rfl, rfl, rfl, rfl, rfl, rfl, rfl,
    List.Mem.head _,
    List.Mem.tail _ (List.Mem.head _),
    List.Mem.tail _ (List.Mem.tail _ (List.Mem.head _)),
    List.Mem.tail _ (List.Mem.tail _ (List.Mem.tail _ (List.Mem.head _))),
    List.Mem.tail _ (List.Mem.tail _ (List.Mem.tail _ (List.Mem.tail _ (List.Mem.head _)))),
    rfl, rfl, rfl, rfl, rfl,
    rfl, rfl, rfl, rfl,
    rfl, rfl, rfl, rfl,
    rfl, rfl, rfl, rfl,
    rfl, rfl, rfl, rfl,
    rfl, rfl, rfl, rfl⟩

/-! ## Claim C6: one graph invocation is not one stage -/

/-- C6 evaluation: a single `graph.invoke` on the freshly ingested state runs
the conditional-edge loop through every remaining stage and returns a state
with stage `complete`, not the immediate successor `design` that a
one-click-one-stage driving model expects.  (The UI of `main` — one button per
agent, re-invoking the graph per click — is written for one-stage stepping;
the role-to-role conditional edges make each invocation run to completion.) -/
theorem c6_one_invoke_runs_all_stages :
    (graphInvoke (fun _ => "ok") (initState "Build a to-do list app with login.")).map
        AppState.current_stage = some "complete" ∧
    (graphInvoke (fun _ => "ok") (initState "Build a to-do list app with login.")).map
        AppState.current_stage ≠ some "design" :=
  ⟨rfl, fun h => absurd (Option.some.inj h) (by decide)⟩

/-! ## Claim C5: placeholder gating by stage -/

/-- C5 counterexample: the claim says a placeholder is filled from the state
only if the current stage is strictly past the stage that produces it.
`design_specs` is produced by the `design` stage (index 1), yet at stage
`design` itself the code already fills it from `design_docs`: on a state with
stage `design` and a populated `specifications` entry the placeholder is
non-empty, refuting the claim. -/
theorem c5_gating_counterexample :
    ¬ (∀ s : AppState, designSpecsVal s ≠ "" → 1 < stageIdx s.current_stage) := by
  intro h
  have := h ⟨"", [], "design", [("specifications", "X")], [], [], [], "designer"⟩ (by decide)
  exact absurd this (by decide)

/-- C5 (amended): every placeholder is the empty string at any stage strictly
before the stage that produces it, and is filled from the state only at or
past the producing stage — strictly past for `project_plan`, while
`design_specs`, `design`, `implementation` and `test_results` are already
filled from the state at their own producing stage.  Hence a prompt never
contains an artifact produced by a strictly later stage.  (The placeholder
values are computed identically for every role before the template is
instantiated, so this holds for every role agent.) -/
theorem c5_placeholder_gating_amended (s : AppState) :
    (s.current_stage = "requirements" →
      projectPlanVal s = "" ∧ designSpecsVal s = "" ∧ implementationVal s = "" ∧
      designVal s = "" ∧ testResultsVal s = "") ∧
    (s.current_stage = "design" → implementationVal s = "" ∧ testResultsVal s = "") ∧
    (s.current_stage = "development" → testResultsVal s = "") ∧
    (projectPlanVal s ≠ "" → s.current_stage ≠ "requirements") ∧
    (designSpecsVal s ≠ "" → s.current_stage ≠ "requirements") ∧
    (designVal s ≠ "" → s.current_stage ≠ "requirements") ∧
    (implementationVal s ≠ "" →
      s.current_stage ≠ "requirements" ∧ s.current_stage ≠ "design") ∧
    (testResultsVal s ≠ "" →
      s.current_stage ≠ "requirements" ∧ s.current_stage ≠ "design" ∧
      s.current_stage ≠ "development") ∧
    (s.current_stage ∉ ["requirements"] →
      designSpecsVal s = dictGetD s.design_docs "specifications" "" ∧
      designVal s = jsonDumpsStrDict s.design_docs) ∧
    (s.current_stage ∉ ["requirements", "design"] →
      implementationVal s = jsonDumpsCodeModules s.code_modules) ∧
    (s.current_stage ∉ ["requirements", "design", "development"] →
      testResultsVal s = jsonDumpsStrDict s.test_results) := by
  refine ⟨?_, ?_, ?_, ?_, ?_, ?_, ?_, ?_, ?_, ?_, ?_⟩
  · intro h
    simp [projectPlanVal, designSpecsVal, implementationVal, designVal, testResultsVal, h]
  · intro h
    simp [implementationVal, testResultsVal, h]
  · intro h
    simp [testResultsVal, h]
  · intro h heq
    exact h (by simp [projectPlanVal, heq])
  · intro h heq
    exact h (by simp [designSpecsVal, heq])
  · intro h heq
    exact h (by simp [designVal, heq])
  · intro h
    constructor
    · intro heq
      exact h (by simp [implementationVal, heq])
    · intro heq
      exact h (by simp [implementationVal, heq])
  · intro h
    refine ⟨?_, ?_, ?_⟩
    · intro heq
      exact h (by simp [testResultsVal, heq])
    · intro heq
      exact h (by simp [testResultsVal, heq])
    · intro heq
      exact h (by simp [testResultsVal, heq])
  · intro h
    have h2 : s.current_stage ≠ "requirements" := by simpa using h
    exact ⟨by simp [designSpecsVal, h2], by simp [designVal, h2]⟩
  · intro h
    simp only [List.mem_cons, List.not_mem_nil, or_false, not_or] at h
    simp [implementationVal, h.1, h.2]
  · intro h
    simp only [List.mem_cons, List.not_mem_nil, or_false, not_or] at h
    simp [testResultsVal, h.1, h.2.1, h.2.2]

/-- Witness for C5 (amended): at the freshly ingested state every placeholder
is empty. -/
theorem c5_placeholder_gating_amended_witness :
    projectPlanVal (initState "r") = "" ∧ designSpecsVal (initState "r") = "" ∧
    implementationVal (initState "r") = "" ∧ designVal (initState "r") = "" ∧
    testResultsVal (initState "r") = "" :=
  (c5_placeholder_gating_amended (initState "r")).1 rfl

/-! ## Claim C4: code-block extraction -/

/-- Writing the matches in order under fresh positional names appends them in
order: the module-dict fold is a plain map when the 1-based names are not
already bound. -/
theorem codeModulesWrite_enumFrom (blocks : List (String × String)) :
    ∀ (k : Nat) (d : List (String × CodeModule)),
      (∀ j, k < j → dictGet? d (moduleName j) = none) →
      (blocks.enumFrom k).foldl
        (fun d2 ic => dictInsert (moduleName (ic.1 + 1))
          ⟨if ic.2.1 ≠ "" then pyStrip ic.2.1 else "text", pyStrip ic.2.2⟩ d2) d =
      d ++ (blocks.enumFrom k).map (fun ic => (moduleName (ic.1 + 1),
        (⟨if ic.2.1 ≠ "" then pyStrip ic.2.1 else "text", pyStrip ic.2.2⟩ : CodeModule))) := by
  induction blocks with
  | nil =>
    intro k d _
    simp [List.enumFrom]
  | cons b bs ih =>
    intro k d hfresh
    have hstep : dictInsert (moduleName (k + 1))
        (⟨if b.1 ≠ "" then pyStrip b.1 else "text", pyStrip b.2⟩ : CodeModule) d =
        d ++ [(moduleName (k + 1),
          (⟨if b.1 ≠ "" then pyStrip b.1 else "text", pyStrip b.2⟩ : CodeModule))] :=
      dictInsert_fresh _ _ _ (hfresh (k + 1) (by omega))
    have hfresh2 : ∀ j, k + 1 < j →
        dictGet? (d ++ [(moduleName (k + 1),
          (⟨if b.1 ≠ "" then pyStrip b.1 else "text", pyStrip b.2⟩ : CodeModule))])
          (moduleName j) = none := by
      intro j hj
      rw [dictGet?_append, hfresh j (by omega)]
      rw [dictGet?_cons, if_neg (fun hc => absurd (moduleName_inj _ _ hc) (by omega))]
      rfl
    simp only [show (b :: bs).enumFrom k = (k, b) :: bs.enumFrom (k + 1) from rfl,
      List.foldl_cons, List.map_cons]
    rw [hstep, ih (k + 1) _ hfresh2]
    simp

/-- If no triple backtick occurs, the regex cannot match at the current
position. -/
theorem tryMatchFence_none_of_noTriple (l : List Char)
    (h : hasTripleBacktick l = false) : tryMatchFence l = none := by
  rw [tryMatchFence.eq_def]
  split
  · simp [hasTripleBacktick] at h
  · rfl

/-- A triple backtick in the tail is a triple backtick in the list. -/
theorem hasTripleBacktick_cons (c : Char) (l : List Char)
    (h : hasTripleBacktick l = true) : hasTripleBacktick (c :: l) = true := by
  rw [hasTripleBacktick.eq_def]
  split
  · rfl
  · rename_i heq
    cases heq
    exact h
  · rename_i heq
    exact absurd heq (by simp)

/-- The scan of a fence-free input finds nothing. -/
theorem findFencesAux_nil_of_noTriple :
    ∀ (fuel : Nat) (l : List Char), hasTripleBacktick l = false →
      findFencesAux fuel l = [] := by
  intro fuel
  induction fuel with
  | zero =>
    intro l _
    cases l <;> rfl
  | succ fuel ih =>
    intro l h
    cases l with
    | nil => rfl
    | cons c rest =>
      have hrest : hasTripleBacktick rest = false := by
        by_contra hc
        simp only [Bool.not_eq_false] at hc
        rw [hasTripleBacktick_cons c rest hc] at h
        exact absurd h (by simp)
      rw [findFencesAux, tryMatchFence_none_of_noTriple _ h]
      exact ih rest hrest

/-- C4: extraction returns one module per regex match, in order of appearance,
named by 1-based position (`module_1`, `module_2`, ...), with language the
fence's tag when present and the literal `"text"` when untagged, and with the
body trimmed; a text without a triple backtick yields the empty collection;
and on a text with a `python`-tagged and an untagged fenced block it yields
`module_1`/`python` and `module_2`/`text`. -/
theorem c4_extract_code_blocks :
    (∀ text : String, extract_code_blocks text =
      (findFences text).enum.map (fun ic => (moduleName (ic.1 + 1),
        (⟨if ic.2.1 ≠ "" then pyStrip ic.2.1 else "text",
          pyStrip ic.2.2⟩ : CodeModule)))) ∧
    (∀ text : String, hasTripleBacktick text.toList = false →
      extract_code_blocks text = []) ∧
    extract_code_blocks
        "Intro\n```python\nprint(1)\n```\nmid\n```\n  plain body \n```\nend" =
      [("module_1", ⟨"python", "print(1)"⟩), ("module_2", ⟨"text", "plain body"⟩)] := by
  refine ⟨?_, ?_, by decide⟩
  · intro text
    have h := codeModulesWrite_enumFrom (findFences text) 0 []
      (fun j _ => by simp [dictGet?])
    simpa [extract_code_blocks, codeModulesWrite, List.enum] using h
  · intro text h
    rw [extract_code_blocks, codeModulesWrite, findFences,
      findFencesAux_nil_of_noTriple _ _ h]
    rfl

/-- Witness for C4: a fence-free text yields the empty collection. -/
theorem c4_extract_code_blocks_witness : extract_code_blocks "no code here" = [] :=
  c4_extract_code_blocks.2.1 "no code here" rfl
